import Mathlib

/-!
Verification of the corona-stat dashboard script (corona_stat.py).

The script is embedded shallowly:

* A pandas DataFrame indexed by date is a `List Row`; the index is the
  `date` field, held as hours since an arbitrary epoch (the CSV dates are
  midnights, 24 hours apart).  A per-row metric value that is missing
  (NaN in pandas) is an absent entry in the `values` column list of the
  row.
* `makePlot` is the chart builder.  Its pandas calls are embedded one by
  one: `DataFrame.query` with the query text built by string
  interpolation, column extraction, `resample("H")`,
  `interpolate(method="polynomial", order=2)`, `figure.line`.  The scipy
  order-2 spline evaluator used by `interpolate` performs external
  floating-point work, so it enters the model as an explicit function
  parameter `fill`; the pandas contract itself - only the gap positions
  are filled, present values are kept - is part of `interpolateWith`.
* Fallible library calls become `Option`/`Except`: `DataFrame.query`
  raises on an ill-formed expression, Python list indexing raises
  `IndexError` past the end of the palette.
* The `streamlit` cache on `getData` is an explicit association list from
  the date argument to the fetched table, threaded through calls.
* The `__main__` selection flow (the 10-country guard, the metric lookup
  and the render call) is `mainRender`.
-/

/-- The single-quote character, written by code point to keep it out of
string literals. -/
def qc : Char := Char.ofNat 39

/-- A one-character string holding the single quote. -/
def squo : String := String.singleton qc

/-- One row of the OWID table: the `location` column, the `date` index
(hours since an arbitrary epoch; CSV dates are midnights, multiples of 24
apart) and the numeric metric columns that carry a value in this row.  A
column absent from `values` is a NaN cell. -/
structure Row where
  location : String
  date : Nat
  values : List (String × ℚ)
deriving DecidableEq

/-- `from bokeh.palettes import Spectral10 as palette`: the fixed
10-colour Spectral palette of hex strings. -/
def palette : List String :=
  ["#9e0142", "#d53e4f", "#f46d43", "#fdae61", "#fee08b",
   "#e6f598", "#abdda4", "#66c2a5", "#3288bd", "#5e4fa2"]

/-- The `statList` lookup table of `__main__`, exactly as written in the
source: display label to column name. -/
def statList : List (String × String) :=
  [("Total deaths", "total_deaths"),
   ("Total deaths per 1.000.000", "total_deaths_per_million"),
   ("New deaths today", "new_deaths"),
   ("New deaths today per 1.000.000", "new_deaths_per_million"),
   ("New cases today", "new_cases"),
   ("New cases today per 1.000.000", "new_cases_per_million"),
   ("Total tests", "total_tests"),
   ("Total test per 1.000", "total_tests_per_thousand")]

/-! ## The query step

`makePlot` runs `coronaData.query(...)` on a query text built by an
f-string as `location==`, a quote, the country name, a quote.  The text
is built by plain interpolation, so the model keeps the text and gives it
the semantics pandas gives it.  `DataFrame.query` parses its argument
with Python expression syntax; of that language the program can only ever
produce texts of this one shape, and such a text is a well-formed
comparison with a string literal exactly when the interpolated characters
contain no further single quote.  A quote inside the country name
terminates the literal early, leaves trailing garbage and makes the text
ill-formed, so `query` raises a syntax error (`none` below). -/

/-- The query text the source builds: `location==`, a quote, the country
name, a quote. -/
def queryString (country : String) : String :=
  "location==" ++ squo ++ country ++ squo

/-- Strip an expected leading character sequence, or fail. -/
def dropPre : List Char → List Char → Option (List Char)
  | [], r => some r
  | _ :: _, [] => none
  | p :: ps, r :: rs => if p = r then dropPre ps rs else none

/-- Read characters up to a closing quote that must end the input; fail if
a quote appears earlier (the literal would be terminated early, leaving
trailing garbage) or the closing quote is missing. -/
def parseLitTail : List Char → Option (List Char)
  | [] => none
  | c :: rest =>
    if c = qc then (if rest = [] then some [] else none)
    else (parseLitTail rest).map (fun l => c :: l)

/-- The fixed leading part of every query text the program builds:
`location==` followed by the opening quote. -/
def locQueryPre : List Char := "location==".data ++ [qc]

/-- Pandas parse of a query text of the only shape this program emits:
returns the string-literal content when the text is a well-formed
comparison of `location` with a quoted literal, and `none` (a raised
syntax error) when it is not. -/
def parseLocEq (q : String) : Option String :=
  match dropPre locQueryPre q.data with
  | none => none
  | some rest => (parseLitTail rest).map String.mk

/-- `DataFrame.query(q)`: parse the expression, then keep the rows whose
`location` equals the literal.  The receiver is not mutated (no `inplace`
flag is passed); the result is a fresh frame. -/
def pdQuery (rows : List Row) (q : String) : Option (List Row) :=
  (parseLocEq q).map (fun lit => rows.filter (fun r => r.location == lit))

/-! ## The per-country series pipeline -/

/-- Column extraction `countryData[plotColumn]`: the date-indexed series
of the rows that carry a value in that column (a row whose cell is NaN is
an absent observation). -/
def extractCol (rows : List Row) (col : String) : List (Nat × ℚ) :=
  rows.filterMap (fun r => (r.values.lookup col).map (fun v => (r.date, v)))

/-- Value of the series at an exact timestamp, if observed there. -/
def lookupTime (s : List (Nat × ℚ)) (t : Nat) : Option ℚ :=
  (s.find? (fun p => p.1 == t)).map Prod.snd

/-- The hourly grid between two timestamps over a series: an original
observation sits at its own timestamp, every other hour is a gap (NaN). -/
def gridOf (lo hi : Nat) (s : List (Nat × ℚ)) : List (Nat × Option ℚ) :=
  (List.range (hi - lo + 1)).map (fun i => (lo + i, lookupTime s (lo + i)))

/-- `.resample("H")`: the hourly grid from the first (minimum) to the last
(maximum) index timestamp of the series. -/
def resampleH (s : List (Nat × ℚ)) : List (Nat × Option ℚ) :=
  match s with
  | [] => []
  | (t1, v1) :: rest =>
    gridOf ((((t1, v1) :: rest).map Prod.fst).foldl min t1)
      ((((t1, v1) :: rest).map Prod.fst).foldl max t1) ((t1, v1) :: rest)

/-- `.interpolate(...)` on the resampled series: pandas keeps every
present value and computes a value only for the gaps; the numeric routine
supplying gap values is the `fill` argument. -/
def interpolateWith (fill : Nat → ℚ) (g : List (Nat × Option ℚ)) : List (Nat × ℚ) :=
  g.map (fun p => (p.1, p.2.getD (fill p.1)))

/-- The scipy order-2 polynomial interpolation evaluator, abstracted: from
the observed knots it yields a value for any timestamp.  It is a fixed
deterministic function; its numeric values are external to this program. -/
abbrev Fill := List (Nat × ℚ) → Nat → ℚ

/-- Lines 55 and 56 of the source for one country: extract the metric
column, resample to hourly, interpolate the gaps. -/
def prepSeries (fill : Fill) (countryData : List Row) (plotColumn : String) :
    List (Nat × ℚ) :=
  let s := extractCol countryData plotColumn
  interpolateWith (fill s) (resampleH s)

/-! ## The chart -/

/-- One `fig.line(...)` glyph: the data columns handed over in the
`ColumnDataSource`, and the keyword arguments the source passes. -/
structure LineGlyph where
  data : List (Nat × ℚ)
  color : String
  legend_label : String
  name : String
  line_width : Nat
deriving DecidableEq

/-- The bokeh figure as far as the source configures it. -/
structure Fig where
  lines : List LineGlyph
  legend_click_policy : String
  legend_location : String
  x_axis_type : String
  desired_num_ticks : Nat
deriving DecidableEq

/-- The two exceptions the loop body can raise: a query syntax error from
`DataFrame.query`, and an `IndexError` from `palette[idx]`. -/
inductive PlotErr
  | queryErr
  | colorErr
deriving DecidableEq

/-- The `for idx, country in enumerate(plotCountries)` loop of `makePlot`.
The frame `coronaData` is threaded through every step and returned, so
that mutation of the frame of the caller, were any step to perform it,
would be visible; `query` allocates a fresh frame and all later steps
work on that copy, so the threaded frame passes through unchanged. -/
def buildLines (fill : Fill) (plotColumn : String) :
    Nat → List String → List Row → Except PlotErr (List LineGlyph) × List Row
  | _, [], frame => (Except.ok [], frame)
  | idx, country :: rest, frame =>
    match pdQuery frame (queryString country) with
    | none => (Except.error PlotErr.queryErr, frame)
    | some countryData =>
      let interpolated := prepSeries fill countryData plotColumn
      match palette.get? idx with
      | none => (Except.error PlotErr.colorErr, frame)
      | some col =>
        match buildLines fill plotColumn (idx + 1) rest frame with
        | (Except.error e, frame2) => (Except.error e, frame2)
        | (Except.ok ls, frame2) =>
          (Except.ok ({ data := interpolated, color := col, legend_label := country,
                        name := country, line_width := 2 } :: ls), frame2)

/-- `makePlot(coronaData, plotColumn, plotCountries)`: build one line per
country and return the configured figure, or propagate the exception.  The
second component is the frame of the caller after the call. -/
def makePlot (fill : Fill) (coronaData : List Row) (plotColumn : String)
    (plotCountries : List String) : Except PlotErr Fig × List Row :=
  match buildLines fill plotColumn 0 plotCountries coronaData with
  | (Except.error e, frame) => (Except.error e, frame)
  | (Except.ok ls, frame) =>
    (Except.ok { lines := ls, legend_click_policy := "hide",
                 legend_location := "top_left", x_axis_type := "datetime",
                 desired_num_ticks := 30 }, frame)

/-! ## The main flow -/

/-- What the streamlit page shows below the two selectors: the bokeh
chart, a plain-text message, or the default error display of an uncaught
exception. -/
inductive MainView
  | chartView : Fig → MainView
  | message : String → MainView
  | scriptError : MainView
deriving DecidableEq

/-- Lines 133 to 138 of the source: if at most 10 countries are selected,
look the chosen label up in `statList`, call `makePlot` and render its
figure; otherwise print the overflow message and never call `makePlot`. -/
def mainRender (fill : Fill) (coronaData : List Row) (statChoice : String)
    (drawCountries : List String) : MainView :=
  if drawCountries.length ≤ 10 then
    match statList.lookup statChoice with
    | none => MainView.scriptError
    | some stat =>
      match (makePlot fill coronaData stat drawCountries).1 with
      | Except.ok f => MainView.chartView f
      | Except.error _ => MainView.scriptError
  else MainView.message "Please no more than 10 countries"

/-! ## The cached fetch -/

/-- One call of the `getData(dateNow)` function decorated with
`@st.cache`.  The streamlit cache is an argument-keyed map, here an
association list from the date to the table it produced.  A hit returns
the stored table and performs no fetch; a miss runs the body, which
fetches once (`fetch` stands for the `pd.read_csv` network read plus the
date parsing and indexing) and stores the result.  The call returns the
pair (table, number of network fetches this call performed) together with
the cache afterwards. -/
def getDataCall (fetch : Nat → List Row) (cache : List (Nat × List Row))
    (dateNow : Nat) : (List Row × Nat) × List (Nat × List Row) :=
  match cache.lookup dateNow with
  | some t => ((t, 0), cache)
  | none => ((fetch dateNow, 1), (dateNow, fetch dateNow) :: cache)

/-- Run a sequence of `getData` calls from a given cache state, returning
for each call its (table, fetch count). -/
def runGetData (fetch : Nat → List Row) :
    List (Nat × List Row) → List Nat → List (List Row × Nat)
  | _, [] => []
  | cache, d :: ds =>
    let r := getDataCall fetch cache d
    r.1 :: runGetData fetch r.2 ds

/-! ## Concrete fixtures -/

/-- A concrete interpolation evaluator for closed instances. -/
def fill0 : Fill := fun _ _ => 0

/-- Three daily observations of `new_cases` for Denmark: the concrete
scenario of the specification (values 10, 20, 15 on consecutive days). -/
def denmarkRows : List Row :=
  [⟨"Denmark", 0, [("new_cases", 10)]⟩,
   ⟨"Denmark", 24, [("new_cases", 20)]⟩,
   ⟨"Denmark", 48, [("new_cases", 15)]⟩]

/-- The OWID location name that contains a single quote. -/
def cote : String := "Cote d" ++ squo ++ "Ivoire"

/-- A dataset holding one observation for that country. -/
def coteRows : List Row :=
  [⟨cote, 0, [("new_cases", 1), ("total_deaths", 1)]⟩]

/-- Eleven distinct country names, for the overflow branch. -/
def elevenCountries : List String :=
  ["C1", "C2", "C3", "C4", "C5", "C6", "C7", "C8", "C9", "C10", "C11"]

/-! ## Helper lemmas -/

theorem foldl_min_of_le (l : List Nat) (a : Nat) (h : ∀ x ∈ l, a ≤ x) :
    l.foldl min a = a := by
  induction l with
  | nil => rfl
  | cons x xs ih =>
    have hx : a ≤ x := h x (by simp)
    have hmin : min a x = a := Nat.min_eq_left hx
    simp only [List.foldl_cons, hmin]
    exact ih (fun y hy => h y (by simp [hy]))

theorem le_foldl_max (l : List Nat) (a : Nat) : a ≤ l.foldl max a := by
  induction l generalizing a with
  | nil => simp
  | cons x xs ih => exact le_trans (Nat.le_max_left a x) (ih (max a x))

theorem mem_le_foldl_max (l : List Nat) (a : Nat) (x : Nat) (hx : x ∈ l) :
    x ≤ l.foldl max a := by
  induction l generalizing a with
  | nil => cases hx
  | cons y ys ih =>
    rcases List.mem_cons.mp hx with h | h
    · subst h
      simp only [List.foldl_cons]
      exact le_trans (Nat.le_max_right a x) (le_foldl_max ys (max a x))
    · simp only [List.foldl_cons]
      exact ih (max a y) h

theorem foldl_max_le (l : List Nat) (a b : Nat) (ha : a ≤ b) (h : ∀ x ∈ l, x ≤ b) :
    l.foldl max a ≤ b := by
  induction l generalizing a with
  | nil => simpa using ha
  | cons x xs ih =>
    simp only [List.foldl_cons]
    exact ih (max a x) (Nat.max_le.mpr ⟨ha, h x (by simp)⟩) (fun y hy => h y (by simp [hy]))

theorem foldl_max_eq (l : List Nat) (a b : Nat) (hb : b ∈ l) (ha : a ≤ b)
    (h : ∀ x ∈ l, x ≤ b) : l.foldl max a = b :=
  le_antisymm (foldl_max_le l a b ha h) (mem_le_foldl_max l a b hb)

theorem find?_eq_of_nodup_fst (s : List (Nat × ℚ)) (t : Nat) (v : ℚ)
    (hnd : (s.map Prod.fst).Nodup) (hm : (t, v) ∈ s) :
    s.find? (fun p => p.1 == t) = some (t, v) := by
  induction s with
  | nil => cases hm
  | cons q rest ih =>
    rcases List.mem_cons.mp hm with h | h
    · subst h
      simp [List.find?]
    · have hq : q.1 ≠ t := by
        intro he
        have hmem : t ∈ rest.map Prod.fst := List.mem_map.mpr ⟨(t, v), h, rfl⟩
        exact (List.nodup_cons.mp hnd).1 (he ▸ hmem)
      have hnd2 : (rest.map Prod.fst).Nodup := (List.nodup_cons.mp hnd).2
      have hbeq : (q.1 == t) = false := beq_eq_false_iff_ne.mpr hq
      simp [List.find?, hbeq, ih hnd2 h]

theorem dropPre_self (p r : List Char) : dropPre p (p ++ r) = some r := by
  induction p with
  | nil => rfl
  | cons a ps ih => simp [dropPre, ih]

theorem parseLitTail_close (l : List Char) (h : qc ∉ l) :
    parseLitTail (l ++ [qc]) = some l := by
  induction l with
  | nil => simp [parseLitTail]
  | cons c rest ih =>
    have hc : c ≠ qc := by intro he; exact h (by simp [he])
    have hr : qc ∉ rest := fun hm => h (by simp [hm])
    simp [parseLitTail, hc, ih hr]

theorem queryString_data (c : String) :
    (queryString c).data = locQueryPre ++ (c.data ++ [qc]) := by
  simp [queryString, locQueryPre, squo, String.data_append, String.singleton]

/-- The query text built for a country whose name is free of single quotes
parses back to exactly that country name: for such names `DataFrame.query`
filters on equality with the name. -/
theorem parseLocEq_queryString (c : String) (h : qc ∉ c.data) :
    parseLocEq (queryString c) = some c := by
  unfold parseLocEq
  rw [queryString_data, dropPre_self]
  simp only [parseLitTail_close c.data h, Option.map_some]
  rfl

theorem palette_length : palette.length = 10 := rfl

/-- Inner invariant of the `makePlot` loop: starting at position `idx`,
with all remaining names quote-free and `idx + length ≤ 10`, the loop
succeeds and produces one glyph per country, labelled by the country and
coloured by the palette entries from `idx` on, in order. -/
theorem buildLines_ok (fill : Fill) (col : String) (frame : List Row) :
    ∀ (cs : List String) (idx : Nat), (∀ c ∈ cs, qc ∉ c.data) → idx + cs.length ≤ 10 →
    ∃ ls, buildLines fill col idx cs frame = (Except.ok ls, frame)
      ∧ ls.map (fun g => g.legend_label) = cs
      ∧ ls.map (fun g => g.color) = (palette.drop idx).take cs.length := by
  intro cs
  induction cs with
  | nil =>
    intro idx h1 h2
    exact ⟨[], rfl, rfl, by simp⟩
  | cons c rest ih =>
    intro idx hq hlen
    have hq1 : pdQuery frame (queryString c)
        = some (frame.filter (fun r => r.location == c)) := by
      rw [pdQuery, parseLocEq_queryString c (hq c (by simp))]
      rfl
    have hidx : idx < palette.length := by
      rw [palette_length]
      simp only [List.length_cons] at hlen
      omega
    have hpal : palette.get? idx = some (palette.get ⟨idx, hidx⟩) := List.get?_eq_get hidx
    obtain ⟨ls, hbl, hlab, hcol⟩ :=
      ih (idx + 1) (fun x hx => hq x (by simp [hx]))
        (by simp only [List.length_cons] at hlen; omega)
    refine ⟨{ data := prepSeries fill (frame.filter (fun r => r.location == c)) col,
              color := palette.get ⟨idx, hidx⟩, legend_label := c, name := c,
              line_width := 2 } :: ls, ?_, ?_, ?_⟩
    · simp only [buildLines, hq1, hpal, hbl]
    · simp [hlab]
    · simp only [List.map_cons, hcol, List.length_cons]
      rw [List.drop_eq_getElem_cons hidx, List.take_succ_cons]
      simp [List.get_eq_getElem]

/-- Unfolding equation for the loop on a non-empty country list. -/
theorem buildLines_cons (fill : Fill) (col : String) (idx : Nat) (c : String)
    (rest : List String) (frame : List Row) :
    buildLines fill col idx (c :: rest) frame =
      match pdQuery frame (queryString c) with
      | none => (Except.error PlotErr.queryErr, frame)
      | some countryData =>
        match palette.get? idx with
        | none => (Except.error PlotErr.colorErr, frame)
        | some col2 =>
          match buildLines fill col (idx + 1) rest frame with
          | (Except.error e, frame2) => (Except.error e, frame2)
          | (Except.ok ls, frame2) =>
            (Except.ok ({ data := prepSeries fill countryData col, color := col2,
                          legend_label := c, name := c, line_width := 2 } :: ls), frame2) := rfl

/-- The loop returns the frame of the caller unchanged, on every path. -/
theorem buildLines_frame (fill : Fill) (col : String) :
    ∀ (cs : List String) (idx : Nat) (frame : List Row),
      (buildLines fill col idx cs frame).2 = frame := by
  intro cs
  induction cs with
  | nil => intro idx frame; rfl
  | cons c rest ih =>
    intro idx frame
    rw [buildLines_cons]
    cases hq : pdQuery frame (queryString c) with
    | none => rfl
    | some cd =>
      cases hpal : palette.get? idx with
      | none => rfl
      | some color =>
        have h2 := ih (idx + 1) frame
        cases hrec : buildLines fill col (idx + 1) rest frame with
        | mk res f2 =>
          rw [hrec] at h2
          cases res with
          | error e => exact h2
          | ok ls => exact h2

/-- While `idx + length ≤ 10` every palette index the loop touches is in
range, so the loop can never raise the colour-lookup error. -/
theorem buildLines_colorSafe (fill : Fill) (col : String) :
    ∀ (cs : List String) (idx : Nat) (frame : List Row), idx + cs.length ≤ 10 →
      (buildLines fill col idx cs frame).1 ≠ Except.error PlotErr.colorErr := by
  intro cs
  induction cs with
  | nil =>
    intro idx frame h hcontra
    cases hcontra
  | cons c rest ih =>
    intro idx frame hlen
    rw [buildLines_cons]
    cases hq : pdQuery frame (queryString c) with
    | none => simp
    | some cd =>
      have hidx : idx < palette.length := by
        rw [palette_length]
        simp only [List.length_cons] at hlen
        omega
      have hpal : palette.get? idx = some (palette.get ⟨idx, hidx⟩) :=
        List.get?_eq_get hidx
      rw [hpal]
      have ihr := ih (idx + 1) frame (by simp only [List.length_cons] at hlen; omega)
      cases hrec : buildLines fill col (idx + 1) rest frame with
      | mk res f2 =>
        rw [hrec] at ihr
        cases res with
        | error e =>
          have he : e ≠ PlotErr.colorErr := fun hee => ihr (by rw [hee])
          simpa using he
        | ok ls => simp

/-! ## Claim theorems -/

/-- C1 (amended): for every dataset and every ordered country list of
length n with 1 ≤ n ≤ 10 whose countries are present in the dataset and
whose names contain no single-quote character, `makePlot` returns a chart
with exactly n line series; the i-th series carries the i-th country name
as its legend label and the i-th colour of the fixed 10-colour palette,
so all n colours are distinct and assigned in input order. -/
theorem makePlotSeriesProps (fill : Fill) (d : List Row) (col : String)
    (cs : List String) (h1 : 1 ≤ cs.length) (h2 : cs.length ≤ 10)
    (hq : ∀ c ∈ cs, qc ∉ c.data)
    (_hpres : ∀ c ∈ cs, (d.map (fun r => r.location)).contains c = true) :
    (makePlot fill d col cs).1.map (fun f => f.lines.length) = Except.ok cs.length
    ∧ (makePlot fill d col cs).1.map (fun f => f.lines.map (fun g => g.legend_label))
        = Except.ok cs
    ∧ (makePlot fill d col cs).1.map (fun f => f.lines.map (fun g => g.color))
        = Except.ok (palette.take cs.length)
    ∧ (palette.take cs.length).Nodup := by
  obtain ⟨ls, hbl, hlab, hcol⟩ := buildLines_ok fill col d cs 0 hq (by omega)
  rw [List.drop_zero] at hcol
  have hmk : (makePlot fill d col cs).1
      = Except.ok ⟨ls, "hide", "top_left", "datetime", 30⟩ := by
    rw [makePlot, hbl]
  have hlen : ls.length = cs.length := by
    have hl2 := congrArg List.length hlab
    simpa using hl2
  refine ⟨?_, ?_, ?_, ?_⟩
  · rw [hmk]
    show Except.ok ls.length = Except.ok cs.length
    rw [hlen]
  · rw [hmk]
    show Except.ok (ls.map (fun g => g.legend_label)) = Except.ok cs
    rw [hlab]
  · rw [hmk]
    show Except.ok (ls.map (fun g => g.color)) = Except.ok (palette.take cs.length)
    rw [hcol]
  · exact List.Nodup.sublist (List.take_sublist _ _) (by decide)

/-- C1 witness: the one-country list Denmark on the concrete dataset
yields one series labelled Denmark in the first palette colour. -/
theorem makePlotSeriesProps_witness :
    (makePlot fill0 denmarkRows "new_cases" ["Denmark"]).1.map
        (fun f => f.lines.map (fun g => g.legend_label)) = Except.ok ["Denmark"]
    ∧ (makePlot fill0 denmarkRows "new_cases" ["Denmark"]).1.map
        (fun f => f.lines.map (fun g => g.color)) = Except.ok (palette.take 1) := by
  have h := makePlotSeriesProps fill0 denmarkRows "new_cases" ["Denmark"]
    (by decide) (by decide) (by decide) (by decide)
  exact ⟨h.2.1, h.2.2.1⟩

/-- C1 counterexample: the country Cote with a quote in its name is
present in the dataset and the list has length 1, yet `makePlot` raises a
query syntax error instead of returning a chart with one series. -/
theorem makePlot_quote_cex :
    (coteRows.map (fun r => r.location)).contains cote = true
    ∧ ([cote] : List String).length = 1
    ∧ (makePlot fill0 coteRows "new_cases" [cote]).1 = Except.error PlotErr.queryErr :=
  ⟨rfl, rfl, rfl⟩

/-- C2: the f-string-built query text for a country with a quote in its
name (an actual OWID location) does not parse, so `DataFrame.query`
raises instead of selecting the rows whose location equals the name; the
claimed equality filter therefore fails for that country-name string. -/
theorem query_injection_bug :
    parseLocEq (queryString cote) = none
    ∧ (makePlot fill0 coteRows "new_cases" [cote]).1 = Except.error PlotErr.queryErr :=
  ⟨rfl, rfl⟩

/-- C3 (amended): a selection of 11 or more countries never reaches
`makePlot` and shows exactly the overflow message; a selection of at most
10 countries takes the chart branch, and whenever `makePlot` succeeds its
figure is rendered. -/
theorem mainRender_guard (fill : Fill) (d : List Row) (statChoice stat : String)
    (cs : List String) (hstat : statList.lookup statChoice = some stat) :
    (11 ≤ cs.length → mainRender fill d statChoice cs
        = MainView.message "Please no more than 10 countries")
    ∧ (∀ f, cs.length ≤ 10 → (makePlot fill d stat cs).1 = Except.ok f →
        mainRender fill d statChoice cs = MainView.chartView f) := by
  constructor
  · intro h11
    rw [mainRender, if_neg (by omega)]
  · intro f hle hok
    rw [mainRender, if_pos hle]
    simp only [hstat, hok]

/-- C3 witness: eleven selected countries produce the overflow message. -/
theorem mainRender_guard_witness :
    mainRender fill0 denmarkRows "Total deaths" elevenCountries
      = MainView.message "Please no more than 10 countries" :=
  (mainRender_guard fill0 denmarkRows "Total deaths" "total_deaths"
    elevenCountries rfl).1 (by decide)

/-- C3 counterexample: one selected country is within the 10-country
limit, yet no chart is rendered - the quote in the name makes `makePlot`
raise, so the script errors instead of showing a chart. -/
theorem mainRender_guard_cex :
    ([cote] : List String).length ≤ 10
    ∧ mainRender fill0 coteRows "Total deaths" [cote] = MainView.scriptError :=
  ⟨by decide, rfl⟩

/-- C4: from a fresh cache, two `getData` calls with the same date fetch
exactly once in total - the second call returns the stored table with no
fetch - and a subsequent call with a different date fetches exactly once. -/
theorem getData_cache (fetch : Nat → List Row) (d dp : Nat) (h : d ≠ dp) :
    runGetData fetch [] [d, d, dp]
      = [(fetch d, 1), (fetch d, 0), (fetch dp, 1)] := by
  have hbf : (dp == d) = false := beq_eq_false_iff_ne.mpr (Ne.symm h)
  simp [runGetData, getDataCall, List.lookup, hbf]

/-- C4 witness: the call sequence 0, 0, 1 fetches on the first and third
calls only. -/
theorem getData_cache_witness :
    runGetData (fun _ => []) [] [0, 0, 1] = [([], 1), ([], 0), ([], 1)] :=
  getData_cache (fun _ => []) 0 1 (by decide)

/-- C5: for a country whose observed series is daily - timestamps t0,
t0 + 24, ..., t0 + 24(D-1) for some D ≥ 1 - the series `makePlot` draws
(built by `prepSeries`, the loop body of `makePlot`) is defined at hourly
granularity from the first to the last observed date: its timestamps are
exactly t0, t0 + 1, ..., t0 + 24(D-1), it has 24(D-1) + 1 points, and
every raw observation appears in it unchanged. -/
theorem prepSeries_daily (fill : Fill) (countryData : List Row) (col : String)
    (t0 D : Nat) (hD : 1 ≤ D)
    (hdaily : (extractCol countryData col).map Prod.fst
      = (List.range D).map (fun i => t0 + 24 * i)) :
    (prepSeries fill countryData col).map Prod.fst
        = (List.range (24 * (D - 1) + 1)).map (fun i => t0 + i)
    ∧ (prepSeries fill countryData col).length = 24 * (D - 1) + 1
    ∧ ∀ p ∈ extractCol countryData col, p ∈ prepSeries fill countryData col := by
  obtain ⟨Dp, rfl⟩ : ∃ Dp, D = Dp + 1 := ⟨D - 1, by omega⟩
  set s := extractCol countryData col with hsdef
  have hlen : s.length = Dp + 1 := by
    have h1 := congrArg List.length hdaily
    simpa using h1
  have hbound : ∀ x ∈ s.map Prod.fst, t0 ≤ x ∧ x ≤ t0 + 24 * Dp := by
    intro x hx
    rw [hdaily] at hx
    rcases List.mem_map.mp hx with ⟨i, hi, rfl⟩
    have hiD : i < Dp + 1 := List.mem_range.mp hi
    have h24 : 24 * i ≤ 24 * Dp := Nat.mul_le_mul_left 24 (by omega)
    omega
  have hlast : t0 + 24 * Dp ∈ s.map Prod.fst := by
    rw [hdaily]
    exact List.mem_map.mpr ⟨Dp, List.mem_range.mpr (by omega), rfl⟩
  have hnd : (s.map Prod.fst).Nodup := by
    rw [hdaily]
    exact List.Nodup.map (fun i j hij => by omega) (List.nodup_range _)
  obtain ⟨t1, v1, rest, hcons⟩ : ∃ t1 v1 rest, s = (t1, v1) :: rest := by
    cases hseq : s with
    | nil => rw [hseq] at hlen; simp at hlen
    | cons p rest => exact ⟨p.1, p.2, rest, by rw [Prod.mk.eta]⟩
  have ht1 : t1 = t0 := by
    have hh : s.map Prod.fst = t1 :: rest.map Prod.fst := by rw [hcons]; rfl
    rw [hdaily] at hh
    rw [List.range_succ_eq_map, List.map_cons] at hh
    have hinj := (List.cons.injEq _ _ _ _).mp hh.symm
    simpa using hinj.1
  have hlo : (s.map Prod.fst).foldl min t1 = t0 := by
    rw [ht1]
    exact foldl_min_of_le _ _ (fun x hx => (hbound x hx).1)
  have hhi : (s.map Prod.fst).foldl max t1 = t0 + 24 * Dp := by
    apply foldl_max_eq _ _ _ hlast
    · rw [ht1]; omega
    · exact fun x hx => (hbound x hx).2
  have hre : resampleH s = gridOf t0 (t0 + 24 * Dp) s := by
    rw [hcons, resampleH, ← hcons, hlo, hhi]
  have hsub : t0 + 24 * Dp - t0 + 1 = 24 * Dp + 1 := by omega
  have hgrid : resampleH s
      = (List.range (24 * Dp + 1)).map (fun i => (t0 + i, lookupTime s (t0 + i))) := by
    rw [hre, gridOf, hsub]
  have hprep : prepSeries fill countryData col
      = (List.range (24 * Dp + 1)).map
          (fun i => (t0 + i, (lookupTime s (t0 + i)).getD (fill s (t0 + i)))) := by
    rw [prepSeries, ← hsdef, hgrid, interpolateWith, List.map_map]
    rfl
  refine ⟨?_, ?_, ?_⟩
  · rw [hprep, List.map_map]
    simp
  · rw [hprep]
    simp
  · intro p hp
    obtain ⟨t, v⟩ := p
    have htm : t ∈ s.map Prod.fst := List.mem_map.mpr ⟨(t, v), hp, rfl⟩
    have hb := hbound t htm
    have hfind : lookupTime s t = some v := by
      rw [lookupTime, find?_eq_of_nodup_fst s t v hnd hp]
      rfl
    rw [hprep]
    refine List.mem_map.mpr ⟨t - t0, List.mem_range.mpr (by omega), ?_⟩
    have ht : t0 + (t - t0) = t := by omega
    rw [ht, hfind]
    rfl

/-- C5 witness: three daily Denmark observations spanning two days give a
49-point hourly series containing the first and last raw observations. -/
theorem prepSeries_daily_witness :
    (prepSeries fill0 denmarkRows "new_cases").length = 24 * (3 - 1) + 1
    ∧ ((0 : Nat), (10 : ℚ)) ∈ prepSeries fill0 denmarkRows "new_cases"
    ∧ ((48 : Nat), (15 : ℚ)) ∈ prepSeries fill0 denmarkRows "new_cases" := by
  have h := prepSeries_daily fill0 denmarkRows "new_cases" 0 3 (by decide) (by decide)
  exact ⟨h.2.1, h.2.2 (0, 10) (by decide), h.2.2 (48, 15) (by decide)⟩

/-- C6: `makePlot` is deterministic - two calls with identical dataset,
metric column and country list (and the same fixed interpolation routine)
return identical results, hence identical series data, labels and
colours. -/
theorem makePlot_deterministic (fill : Fill) (d1 d2 : List Row) (col1 col2 : String)
    (cs1 cs2 : List String) (h1 : d1 = d2) (h2 : col1 = col2) (h3 : cs1 = cs2) :
    makePlot fill d1 col1 cs1 = makePlot fill d2 col2 cs2 := by
  subst h1; subst h2; subst h3; rfl

/-- C6 witness: the concrete two-country call equals itself via the
determinism theorem. -/
theorem makePlot_deterministic_witness :
    makePlot fill0 denmarkRows "new_cases" ["Denmark", "Peru"]
      = makePlot fill0 denmarkRows "new_cases" ["Denmark", "Peru"] :=
  makePlot_deterministic fill0 denmarkRows denmarkRows "new_cases" "new_cases"
    ["Denmark", "Peru"] ["Denmark", "Peru"] rfl rfl rfl

/-- C7 (amended): `statList` maps exactly the eight display labels as
written in the source - thousands separators are periods and the tests
label reads Total test per 1.000 - to the listed column names, including
Total deaths per 1.000.000 to total_deaths_per_million and Total test per
1.000 to total_tests_per_thousand. -/
theorem statList_spec :
    statList.map Prod.fst
      = ["Total deaths", "Total deaths per 1.000.000", "New deaths today",
         "New deaths today per 1.000.000", "New cases today",
         "New cases today per 1.000.000", "Total tests", "Total test per 1.000"]
    ∧ statList.lookup "Total deaths per 1.000.000" = some "total_deaths_per_million"
    ∧ statList.lookup "Total test per 1.000" = some "total_tests_per_thousand"
    ∧ statList.length = 8 :=
  ⟨rfl, rfl, rfl, rfl⟩

/-- C7 counterexample: the comma-separated labels the claim names are not
keys of the table. -/
theorem statList_label_cex :
    statList.lookup "Total deaths per 1,000,000" = none
    ∧ statList.lookup "Total tests per 1,000" = none :=
  ⟨rfl, rfl⟩

/-- C8: `makePlot` does not mutate the input dataset - the frame threaded
through every step of the call comes back unchanged for every input. -/
theorem makePlot_pure (fill : Fill) (d : List Row) (col : String) (cs : List String) :
    (makePlot fill d col cs).2 = d := by
  have hf := buildLines_frame fill col cs 0 d
  cases hbl : buildLines fill col 0 cs d with
  | mk res f2 =>
    rw [hbl] at hf
    cases res with
    | error e => rw [makePlot, hbl]; exact hf
    | ok ls => rw [makePlot, hbl]; exact hf

/-- C9: when at most 10 countries are passed, every palette access of
`makePlot` is in range of the fixed 10-colour palette, so the
colour-lookup error is unreachable. -/
theorem makePlot_colorSafe (fill : Fill) (d : List Row) (col : String)
    (cs : List String) (h : cs.length ≤ 10) :
    (makePlot fill d col cs).1 ≠ Except.error PlotErr.colorErr := by
  have hb := buildLines_colorSafe fill col cs 0 d (by omega)
  cases hbl : buildLines fill col 0 cs d with
  | mk res f2 =>
    rw [hbl] at hb
    cases res with
    | error e =>
      have he : e ≠ PlotErr.colorErr := fun hee => hb (by rw [hee])
      rw [makePlot, hbl]
      simpa using he
    | ok ls =>
      rw [makePlot, hbl]
      simp

/-- C9 witness: a two-country call is within the bound and raises no
colour error. -/
theorem makePlot_colorSafe_witness :
    (["Denmark", "Peru"] : List String).length ≤ 10
    ∧ (makePlot fill0 denmarkRows "new_cases" ["Denmark", "Peru"]).1
        ≠ Except.error PlotErr.colorErr :=
  ⟨by decide, makePlot_colorSafe fill0 denmarkRows "new_cases" ["Denmark", "Peru"] (by decide)⟩

/-- C10: an empty country selection passes the at-most-10 guard and
renders a chart with exactly zero line series, raising no error. -/
theorem mainRender_emptySel (fill : Fill) (d : List Row) (statChoice stat : String)
    (hstat : statList.lookup statChoice = some stat) :
    mainRender fill d statChoice []
      = MainView.chartView ⟨[], "hide", "top_left", "datetime", 30⟩ := by
  rw [mainRender, if_pos (by simp)]
  simp only [hstat]
  rfl

/-- C10 witness: the empty selection with the default metric shows the
empty chart. -/
theorem mainRender_emptySel_witness :
    mainRender fill0 denmarkRows "Total deaths" []
      = MainView.chartView ⟨[], "hide", "top_left", "datetime", 30⟩ :=
  mainRender_emptySel fill0 denmarkRows "Total deaths" "total_deaths" rfl
